import Mathlib

/-!
Verification of `src/touch/src/data/association/HasOne.js`.

The file under verification defines `Ext.data.association.HasOne`, a
single-valued association backed by a `hasMany`-style store.  Its two
methods are embedded here:

* `applyName` — relation-name derivation;
* `applyStore` — the per-record collection factory, which creates the
  bound store, installs the synthesized getter/setter closures on the
  record, and triggers the store's load.

External collaborators that are not part of `src/` (`Ext.data.Store`,
the record/save capability, `Ext.String.capitalize`'s host string
functions) are modelled from the spec where noted.  Reference semantics
(which record's slot points at which store instance) is made explicit by
a heap of stores addressed by identifiers.
-/

/-- An associated-model record: named fields holding integer values
(the `Ext.data.Model` record capability, field lookup by name). -/
structure ARecord where
  fields : List (String × Int)
  deriving DecidableEq, Repr

/-- Field lookup on an associated record. -/
def ARecord.getField (r : ARecord) (k : String) : Option Int :=
  r.fields.lookup k

/-- `Ext.String.capitalize`: first character upper-cased, rest unchanged. -/
def capitalize (s : String) : String :=
  match s.data with
  | [] => ""
  | c :: cs => String.mk (Char.toUpper c :: cs)

/-- Modelled from the spec: the host `String.prototype.toLowerCase` —
every character lower-cased. -/
def strToLower (s : String) : String :=
  String.mk (s.data.map Char.toLower)

/-- `HasOne.applyName` (source lines 140–145):
`if (!name) { name = this.getAssociatedName().toLowerCase(); } return name;`
JS `!name` is true for a missing name and for the empty string. -/
def applyName (name : Option String) (associatedName : String) : String :=
  match name with
  | none => strToLower associatedName
  | some n => if n = "" then strToLower associatedName else n

/-- The getter name synthesized in `applyStore`:
`"get" + Ext.String.capitalize(me.getName())`. -/
def getterFnName (name : String) : String := "get" ++ capitalize name

/-- The setter name synthesized in `applyStore`:
`"set" + Ext.String.capitalize(me.getName())`. -/
def setterFnName (name : String) : String := "set" ++ capitalize name

/-- The configuration a store is created from: a model binding and
optional (field, value) filters. -/
structure StoreConfig where
  model : Option String
  filters : List (String × Int)
  deriving DecidableEq, Repr

/-- `Ext.apply({}, storeConfig, { model: associatedModel })` (source
lines 159–161): the supplied config is copied and only its `model`
property is overridden; in particular no filter is added. -/
def mergeStoreConfig (c : StoreConfig) (associatedModel : String) : StoreConfig :=
  { c with model := some associatedModel }

/-- Modelled from the spec: the external Loadable Collection capability
(`Ext.data.Store`, not under `src/`).  It holds elements, remembers its
configuration, and counts triggered, completed and failed loads so that
"exactly one load" and "non-terminal after failure" are expressible.
Loads are asynchronous: triggering and completion are separate steps. -/
structure Store where
  model : Option String
  filters : List (String × Int)
  elems : List ARecord
  loadsTriggered : Nat
  loadsCompleted : Nat
  loadsFailed : Nat
  deriving DecidableEq, Repr

/-- Modelled from the spec: `Ext.create('Ext.data.Store', config)` —
a fresh, empty, not-yet-loaded store with the given configuration. -/
def createStore (c : StoreConfig) : Store :=
  { model := c.model, filters := c.filters, elems := [],
    loadsTriggered := 0, loadsCompleted := 0, loadsFailed := 0 }

/-- Modelled from the spec: `store.load()` — asynchronous; the call
returns before any data is available, so it only records that a load is
in flight. -/
def Store.load (s : Store) : Store :=
  { s with loadsTriggered := s.loadsTriggered + 1 }

/-- Modelled from the spec: `store.removeAll()` clears all elements. -/
def Store.removeAll (s : Store) : Store :=
  { s with elems := [] }

/-- Whether a record matches one (field, value) filter. -/
def ARecord.matchesFilter (r : ARecord) (f : String × Int) : Bool :=
  r.getField f.1 == some f.2

/-- Modelled from the spec: successful completion of an in-flight load
populates the elements with the data-source records matching the
store's configured filters (all of them when no filter is set). -/
def Store.completeLoad (s : Store) (dataSource : List ARecord) : Store :=
  { s with elems := dataSource.filter (fun r => s.filters.all r.matchesFilter),
           loadsCompleted := s.loadsCompleted + 1 }

/-- Modelled from the spec: a failed load leaves the elements untouched;
the collection stays non-terminal. -/
def Store.completeLoadFailure (s : Store) : Store :=
  { s with loadsFailed := s.loadsFailed + 1 }

/-- Modelled from the spec: `store.first()` — the first element held, or
absent. -/
def Store.first (s : Store) : Option ARecord :=
  s.elems.head?

/-- The value passed to the synthesized setter: a raw primary-key value
or an associated-record instance. -/
inductive SetterArg where
  | rawKey (k : Int)
  | inst (r : ARecord)
  deriving DecidableEq, Repr

/-- Modelled from the spec: the element derived from a setter value —
the record itself, or the record constructed from the raw primary-key
value. -/
def SetterArg.derive (primaryKey : String) : SetterArg → ARecord
  | .rawKey k => ⟨[(primaryKey, k)]⟩
  | .inst r => r

/-- Modelled from the spec: `store.add(x)` appends the single element
derived from the supplied value. -/
def Store.add (s : Store) (primaryKey : String) (a : SetterArg) : Store :=
  { s with elems := s.elems ++ [a.derive primaryKey] }

/-- The synthesized getter installed by `applyStore` (source lines
167–169): `function(){ return store.first(); }`. -/
def hasOneGetter (s : Store) : Option ARecord :=
  s.first

/-- The synthesized setter installed by `applyStore` (source lines
170–173): `function(record){ store.removeAll(); store.add(record); }`. -/
def hasOneSetter (primaryKey : String) (s : Store) (a : SetterArg) : Store :=
  (s.removeAll).add primaryKey a

/-- Calling the synthesized getter with a callback argument.  The
installed function declares no parameters, so in JS the argument is
ignored, and its body `return store.first()` performs no invocation of
it; the result is paired with the list of callback invocations the call
performs, which is therefore empty. -/
def hasOneGetterCall {β : Type} (s : Store) (_cb : β) : Option ARecord × List β :=
  (hasOneGetter s, [])

/-- Calling the synthesized setter with a second argument.  The
installed function declares a single parameter `record`, so in JS the
second argument is ignored and never invoked; the result is paired with
the (empty) list of invocations of the second argument. -/
def hasOneSetterCall2 {β : Type} (primaryKey : String) (s : Store) (a : SetterArg)
    (_second : β) : Store × List β :=
  (hasOneSetter primaryKey s a, [])

/-- An owner-model record: its fields, the instance-local slot
`record[storeName]` holding a reference (heap id) to its bound store,
the names of the functions installed on it, and a count of `save()`
calls issued on it (so frame conditions about saving are expressible). -/
structure OwnerRecord where
  fields : List (String × Int)
  storeSlot : Option Nat
  installed : List String
  saveCount : Nat
  deriving DecidableEq, Repr

/-- Modelled from the spec: the record capability `save()` (external);
only counted, so that "no save is triggered" can be stated. -/
def OwnerRecord.save (r : OwnerRecord) : OwnerRecord :=
  { r with saveCount := r.saveCount + 1 }

/-- Reference semantics: stores live in a heap and records refer to them
by id; a freshly created store receives the next fresh id.  Two slots
holding the same id alias the same store instance. -/
structure Sys where
  heap : List Store
  recs : Nat → OwnerRecord

/-- The per-record collection factory returned by `applyStore` (source
lines 153–178), invoked with record `i` as `this`: when
`record[storeName] === undefined` it merges the store config with the
associated model, creates the store, assigns it to the slot, installs
the getter and setter (named from the capitalized relation name), and
triggers the store's load; otherwise the record is untouched. -/
def sysFactory (storeConfig : StoreConfig) (associatedModel : String) (name : String)
    (sys : Sys) (i : Nat) : Sys :=
  match (sys.recs i).storeSlot with
  | some _ => sys
  | none =>
    let sid := sys.heap.length
    let store := (createStore (mergeStoreConfig storeConfig associatedModel)).load
    { heap := sys.heap ++ [store],
      recs := Function.update sys.recs i
        { sys.recs i with
          storeSlot := some sid,
          installed := (sys.recs i).installed ++ [getterFnName name, setterFnName name] } }

/-- The factory together with its return value `record[storeName]`
(the id of the store the slot now refers to). -/
def sysFactoryRet (storeConfig : StoreConfig) (associatedModel : String) (name : String)
    (sys : Sys) (i : Nat) : Sys × Option Nat :=
  let sys' := sysFactory storeConfig associatedModel name sys i
  (sys', (sys'.recs i).storeSlot)

/-- `applyStore` with the association's configured `primaryKey` and
`foreignKey` in scope (inherited config on `me`): the body of
`applyStore` never reads either, so the factory is literally the same
function. -/
def sysFactoryWithKeys (_primaryKey _foreignKey : String) (storeConfig : StoreConfig)
    (associatedModel : String) (name : String) (sys : Sys) (i : Nat) : Sys :=
  sysFactory storeConfig associatedModel name sys i

/-- The store instance a record's slot currently refers to. -/
def Sys.storeOf (sys : Sys) (i : Nat) : Option Store :=
  (sys.recs i).storeSlot.bind (fun sid => sys.heap[sid]?)

/-- The installed getter invoked on record `i` (reads the store its
closure captured — the one the record's slot refers to). -/
def sysGetter (sys : Sys) (i : Nat) : Option ARecord :=
  (sys.storeOf i).bind hasOneGetter

/-- Calling the getter on record `i`: its body only evaluates
`store.first()`, so the system state is returned unchanged. -/
def sysGetterCall (sys : Sys) (i : Nat) : Option ARecord × Sys :=
  (sysGetter sys i, sys)

/-- The installed setter invoked on record `i`: mutates (in place) the
store its closure captured. -/
def sysSetter (primaryKey : String) (sys : Sys) (i : Nat) (a : SetterArg) : Sys :=
  match (sys.recs i).storeSlot with
  | none => sys
  | some sid =>
    match sys.heap[sid]? with
    | none => sys
    | some s => { sys with heap := sys.heap.set sid (hasOneSetter primaryKey s a) }

/-- Asynchronous successful completion of the load in flight on record
`i`'s store. -/
def sysCompleteLoad (sys : Sys) (i : Nat) (dataSource : List ARecord) : Sys :=
  match (sys.recs i).storeSlot with
  | none => sys
  | some sid =>
    match sys.heap[sid]? with
    | none => sys
    | some s => { sys with heap := sys.heap.set sid (s.completeLoad dataSource) }

/-- Asynchronous failed completion of the load in flight on record
`i`'s store. -/
def sysCompleteLoadFailure (sys : Sys) (i : Nat) : Sys :=
  match (sys.recs i).storeSlot with
  | none => sys
  | some sid =>
    match sys.heap[sid]? with
    | none => sys
    | some s => { sys with heap := sys.heap.set sid s.completeLoadFailure }

/-- Total number of loads ever triggered in the system. -/
def Sys.totalLoads (sys : Sys) : Nat :=
  (sys.heap.map Store.loadsTriggered).sum

/- Concrete records, configurations and systems used for scenarios and
witnesses. -/

/-- Associated record with primary key 5. -/
def addr5 : ARecord := ⟨[("id", 5)]⟩

/-- Associated record with primary key 20. -/
def addr20 : ARecord := ⟨[("id", 20)]⟩

/-- Owner record with foreign key `address_id = 20`, no prior access. -/
def owner20 : OwnerRecord := ⟨[("address_id", 20)], none, [], 0⟩

/-- A system holding only fresh `owner20` records. -/
def sys0 : Sys := ⟨[], fun _ => owner20⟩

/-- A plain store configuration: no model binding yet, no filters. -/
def cfg0 : StoreConfig := ⟨none, []⟩

/-- Owner record with a different foreign-key value (used to show the
created store is independent of the owner's fields). -/
def owner99 : OwnerRecord := ⟨[("address_id", 99)], none, [], 0⟩

/-- A system holding only fresh `owner99` records. -/
def sys99 : Sys := ⟨[], fun _ => owner99⟩

/-- C9: name derivation returns the explicit name when provided and
non-empty, otherwise the lower-cased associated-type name; the installed
functions are `get`/`set` ++ capitalized relation name, so associated
type `Address` with no explicit name yields relation name `address` and
functions `getAddress`/`setAddress`. -/
theorem applyName_spec :
    (∀ n a, n ≠ "" → applyName (some n) a = n) ∧
    (∀ a, applyName none a = strToLower a) ∧
    applyName none "Address" = "address" ∧
    getterFnName (applyName none "Address") = "getAddress" ∧
    setterFnName (applyName none "Address") = "setAddress" := by
  refine ⟨fun n a h => ?_, fun a => rfl, by decide, by decide, by decide⟩
  simp [applyName, h]

theorem applyName_spec_witness :
    applyName (some "link") "Address" = "link" :=
  applyName_spec.1 "link" "Address" (by decide)

/-- C7: the installed getter returns the first element currently held by
the bound store (or `none` when empty); calling it leaves the whole
system unchanged — in particular it triggers no fresh load; and called
right after the factory ran (load in flight, not yet completed) it
yields `none` without any error. -/
theorem getter_spec :
    (∀ s : Store, hasOneGetter s = s.elems.head?) ∧
    (∀ sys i, sysGetterCall sys i = (sysGetter sys i, sys)) ∧
    (∀ cfg am name sys i, (sys.recs i).storeSlot = none →
       sysGetter (sysFactory cfg am name sys i) i = none) := by
  refine ⟨fun s => rfl, fun sys i => rfl, fun cfg am name sys i h => ?_⟩
  simp [sysFactory, h, sysGetter, Sys.storeOf, Function.update_same,
        List.getElem?_concat_length, hasOneGetter, Store.first, Store.load, createStore]

theorem getter_spec_witness :
    sysGetter (sysFactory cfg0 "Address" "address" sys0 0) 0 = none :=
  getter_spec.2.2 cfg0 "Address" "address" sys0 0 rfl

/-- C2: the setter clears the bound store and then adds exactly the one
element derived from its value (the record built from the key in the
raw-key case); afterwards the getter returns that element and the store
holds cardinality exactly 1, also after a second consecutive setter
call, so a synchronous getter interleaved between two setter calls never
observes 2 elements. -/
theorem setter_spec :
    (∀ pk s a, (hasOneSetter pk s a).elems = [a.derive pk] ∧
       hasOneGetter (hasOneSetter pk s a) = some (a.derive pk) ∧
       (hasOneSetter pk s a).elems.length = 1 ∧
       ∀ b, (hasOneSetter pk (hasOneSetter pk s a) b).elems.length = 1) ∧
    (∀ pk sys i sid a, (sys.recs i).storeSlot = some sid → sid < sys.heap.length →
       sysGetter (sysSetter pk sys i a) i = some (a.derive pk)) := by
  constructor
  · exact fun pk s a => ⟨rfl, rfl, rfl, fun b => rfl⟩
  · intro pk sys i sid a h1 h2
    have hs : sys.heap[sid]? = some sys.heap[sid] := List.getElem?_eq_getElem h2
    simp [sysSetter, h1, hs, sysGetter, Sys.storeOf, List.getElem?_set_self,
          h2, hasOneGetter, Store.first, hasOneSetter, Store.removeAll, Store.add]

theorem setter_spec_witness :
    sysGetter (sysSetter "id" (sysFactory cfg0 "Address" "address" sys0 0) 0
      (SetterArg.rawKey 9)) 0 = some (SetterArg.derive "id" (SetterArg.rawKey 9)) :=
  setter_spec.2 "id" (sysFactory cfg0 "Address" "address" sys0 0) 0 0
    (SetterArg.rawKey 9) (by decide) (by decide)

/-- C10: the setter's only effect is on the bound store's contents:
every field of every owner record, its save count (no save is ever
triggered) and its installed functions are unchanged, and a second
argument passed to the setter is ignored — the call equals the
one-argument call and the second argument is never invoked. -/
theorem setter_frame :
    (∀ pk sys i j a, ((sysSetter pk sys i a).recs j).fields = (sys.recs j).fields ∧
       ((sysSetter pk sys i a).recs j).saveCount = (sys.recs j).saveCount ∧
       ((sysSetter pk sys i a).recs j).installed = (sys.recs j).installed) ∧
    (∀ (β : Type) pk s a (second : β),
       hasOneSetterCall2 pk s a second = (hasOneSetter pk s a, [])) := by
  constructor
  · intro pk sys i j a
    cases h1 : (sys.recs i).storeSlot with
    | none => simp [sysSetter, h1]
    | some sid =>
      cases h2 : sys.heap[sid]? with
      | none => simp [sysSetter, h1, h2]
      | some s => simp [sysSetter, h1, h2]
  · intro β pk s a second
    rfl

/-- Action of the factory on a record whose slot is still undefined:
allocate a fresh store (config merged with the model binding), trigger
its load, store its id in the slot, and install the two functions. -/
theorem sysFactory_unbound (cfg : StoreConfig) (am name : String) (sys : Sys) (i : Nat)
    (h : (sys.recs i).storeSlot = none) :
    sysFactory cfg am name sys i =
      { heap := sys.heap ++ [(createStore (mergeStoreConfig cfg am)).load],
        recs := Function.update sys.recs i
          { sys.recs i with
            storeSlot := some sys.heap.length,
            installed := (sys.recs i).installed ++ [getterFnName name, setterFnName name] } } := by
  simp [sysFactory, h]

/-- Action of the factory on a record whose slot is already set: the
whole system is untouched. -/
theorem sysFactory_bound (cfg : StoreConfig) (am name : String) (sys : Sys) (i sid : Nat)
    (h : (sys.recs i).storeSlot = some sid) :
    sysFactory cfg am name sys i = sys := by
  simp [sysFactory, h]

/-- C3: the collection factory is idempotent per record: the first
invocation creates the bound store, installs the getter/setter, and
triggers its load exactly once; a repeated invocation for the same
record leaves the system unchanged, returns the reference-identical
store (the same heap id), creates no new store and starts no second
load. -/
theorem factory_idempotent (cfg : StoreConfig) (am name : String) (sys : Sys) (i : Nat)
    (h : (sys.recs i).storeSlot = none) :
    ((sysFactory cfg am name sys i).recs i).storeSlot = some sys.heap.length ∧
    (sysFactory cfg am name sys i).heap
      = sys.heap ++ [(createStore (mergeStoreConfig cfg am)).load] ∧
    ((sysFactory cfg am name sys i).recs i).installed
      = (sys.recs i).installed ++ [getterFnName name, setterFnName name] ∧
    (sysFactory cfg am name sys i).totalLoads = sys.totalLoads + 1 ∧
    sysFactory cfg am name (sysFactory cfg am name sys i) i = sysFactory cfg am name sys i ∧
    sysFactoryRet cfg am name (sysFactory cfg am name sys i) i
      = (sysFactory cfg am name sys i, some sys.heap.length) := by
  have h1 := sysFactory_unbound cfg am name sys i h
  have hslot : ((sysFactory cfg am name sys i).recs i).storeSlot = some sys.heap.length := by
    rw [h1]; simp [Function.update_same]
  refine ⟨hslot, by rw [h1], by rw [h1]; simp [Function.update_same], ?_, ?_, ?_⟩
  · rw [h1]
    simp [Sys.totalLoads, Store.load, createStore]
  · exact sysFactory_bound cfg am name _ i sys.heap.length hslot
  · simp [sysFactoryRet, sysFactory_bound cfg am name _ i sys.heap.length hslot, hslot]

theorem factory_idempotent_witness :
    ((sysFactory cfg0 "Address" "address" sys0 0).recs 0).storeSlot = some sys0.heap.length ∧
    (sysFactory cfg0 "Address" "address" sys0 0).heap
      = sys0.heap ++ [(createStore (mergeStoreConfig cfg0 "Address")).load] ∧
    ((sysFactory cfg0 "Address" "address" sys0 0).recs 0).installed
      = (sys0.recs 0).installed ++ [getterFnName "address", setterFnName "address"] ∧
    (sysFactory cfg0 "Address" "address" sys0 0).totalLoads = sys0.totalLoads + 1 ∧
    sysFactory cfg0 "Address" "address" (sysFactory cfg0 "Address" "address" sys0 0) 0
      = sysFactory cfg0 "Address" "address" sys0 0 ∧
    sysFactoryRet cfg0 "Address" "address" (sysFactory cfg0 "Address" "address" sys0 0) 0
      = (sysFactory cfg0 "Address" "address" sys0 0, some sys0.heap.length) :=
  factory_idempotent cfg0 "Address" "address" sys0 0 rfl

/-- The C4 scenario: the factory runs on a fresh record with
`address_id = 20`, then the (unfiltered) load completes against a
data source holding two associated records, `id 5` first. -/
def sysC4 : Sys :=
  sysCompleteLoad (sysFactory cfg0 "Address" "address" sys0 0) 0 [addr5, addr20]

/-- C4: the bound store is built from the supplied configuration merged
only with the forced model binding — no filter or key derived from the
owner's foreign key — so the created store is independent of the owner
record's fields and the initial load is unconstrained: with a two-record
data source the collection holds both records and the getter returns the
data source's first record (`id 5`), not the one matching the owner's
`address_id = 20`. -/
theorem unconstrainedLoad_spec :
    (∀ cfg am, (mergeStoreConfig cfg am).filters = cfg.filters ∧
       (mergeStoreConfig cfg am).model = some am) ∧
    (∀ cfg am name sys sys' i, (sys.recs i).storeSlot = none →
       (sys'.recs i).storeSlot = none → sys.heap = sys'.heap →
       (sysFactory cfg am name sys i).storeOf i = (sysFactory cfg am name sys' i).storeOf i) ∧
    ((sysC4.storeOf 0).map Store.elems = some [addr5, addr20] ∧
     sysGetter sysC4 0 = some addr5 ∧
     owner20.fields.lookup "address_id" = some 20 ∧
     addr5.getField "id" = some 5) := by
  refine ⟨fun cfg am => ⟨rfl, rfl⟩, fun cfg am name sys sys' i h h' hh => ?_,
          by decide, by decide, by decide, by decide⟩
  rw [sysFactory_unbound cfg am name sys i h, sysFactory_unbound cfg am name sys' i h']
  simp [Sys.storeOf, Function.update_same, List.getElem?_concat_length, hh]

theorem unconstrainedLoad_spec_witness :
    (sysFactory cfg0 "Address" "address" sys0 0).storeOf 0
      = (sysFactory cfg0 "Address" "address" sys99 0).storeOf 0 :=
  unconstrainedLoad_spec.2.1 cfg0 "Address" "address" sys0 sys99 0 rfl rfl rfl

/-- C5: two distinct owner records each obtain their own independent
bound store, held in their own instance-local slots: the factory
allocates distinct heap ids for them, and mutating one record's store
through its setter leaves the other record's store — and hence its
getter result — unchanged. -/
theorem records_independent (cfg : StoreConfig) (am name pk : String) (sys : Sys)
    (i j : Nat) (a : SetterArg) (hij : i ≠ j)
    (hi : (sys.recs i).storeSlot = none) (hj : (sys.recs j).storeSlot = none) :
    ((sysFactory cfg am name (sysFactory cfg am name sys i) j).recs i).storeSlot
      = some sys.heap.length ∧
    ((sysFactory cfg am name (sysFactory cfg am name sys i) j).recs j).storeSlot
      = some (sys.heap.length + 1) ∧
    ((sysFactory cfg am name (sysFactory cfg am name sys i) j).recs i).storeSlot
      ≠ ((sysFactory cfg am name (sysFactory cfg am name sys i) j).recs j).storeSlot ∧
    (sysSetter pk (sysFactory cfg am name (sysFactory cfg am name sys i) j) i a).storeOf j
      = (sysFactory cfg am name (sysFactory cfg am name sys i) j).storeOf j ∧
    sysGetter (sysSetter pk (sysFactory cfg am name (sysFactory cfg am name sys i) j) i a) j
      = sysGetter (sysFactory cfg am name (sysFactory cfg am name sys i) j) j := by
  have h1 := sysFactory_unbound cfg am name sys i hi
  have h1j : ((sysFactory cfg am name sys i).recs j).storeSlot = none := by
    rw [h1]; simpa [Function.update_noteq (Ne.symm hij)] using hj
  have h2 := sysFactory_unbound cfg am name (sysFactory cfg am name sys i) j h1j
  have h1heap : (sysFactory cfg am name sys i).heap
      = sys.heap ++ [(createStore (mergeStoreConfig cfg am)).load] := by rw [h1]
  have h2i : ((sysFactory cfg am name (sysFactory cfg am name sys i) j).recs i).storeSlot
      = some sys.heap.length := by
    rw [h2]
    simp only [Function.update_noteq hij]
    rw [h1]; simp [Function.update_same]
  have h2j : ((sysFactory cfg am name (sysFactory cfg am name sys i) j).recs j).storeSlot
      = some (sys.heap.length + 1) := by
    rw [h2]; simp [Function.update_same, h1heap]
  have h2heap : (sysFactory cfg am name (sysFactory cfg am name sys i) j).heap
      = (sys.heap ++ [(createStore (mergeStoreConfig cfg am)).load])
        ++ [(createStore (mergeStoreConfig cfg am)).load] := by
    rw [h2, h1heap]
  have hlook : (sysFactory cfg am name (sysFactory cfg am name sys i) j).heap[sys.heap.length]?
      = some ((createStore (mergeStoreConfig cfg am)).load) := by
    rw [h2heap, List.getElem?_append_left (by simp), List.getElem?_concat_length]
  have hset : sysSetter pk (sysFactory cfg am name (sysFactory cfg am name sys i) j) i a
      = { sysFactory cfg am name (sysFactory cfg am name sys i) j with
          heap := (sysFactory cfg am name (sysFactory cfg am name sys i) j).heap.set
            sys.heap.length
            (hasOneSetter pk ((createStore (mergeStoreConfig cfg am)).load) a) } := by
    simp [sysSetter, h2i, hlook]
  have hstoreof : (sysSetter pk (sysFactory cfg am name (sysFactory cfg am name sys i) j) i a).storeOf j
      = (sysFactory cfg am name (sysFactory cfg am name sys i) j).storeOf j := by
    rw [hset]
    simp [Sys.storeOf, h2j, List.getElem?_set_ne (by omega : sys.heap.length ≠ sys.heap.length + 1)]
  refine ⟨h2i, h2j, ?_, hstoreof, ?_⟩
  · rw [h2i, h2j]; simp
  · simp [sysGetter, hstoreof]

theorem records_independent_witness :
    ((sysFactory cfg0 "Address" "address" (sysFactory cfg0 "Address" "address" sys0 0) 1).recs 0).storeSlot
      = some sys0.heap.length ∧
    ((sysFactory cfg0 "Address" "address" (sysFactory cfg0 "Address" "address" sys0 0) 1).recs 1).storeSlot
      = some (sys0.heap.length + 1) ∧
    ((sysFactory cfg0 "Address" "address" (sysFactory cfg0 "Address" "address" sys0 0) 1).recs 0).storeSlot
      ≠ ((sysFactory cfg0 "Address" "address" (sysFactory cfg0 "Address" "address" sys0 0) 1).recs 1).storeSlot ∧
    (sysSetter "id" (sysFactory cfg0 "Address" "address" (sysFactory cfg0 "Address" "address" sys0 0) 1) 0
        (SetterArg.rawKey 3)).storeOf 1
      = (sysFactory cfg0 "Address" "address" (sysFactory cfg0 "Address" "address" sys0 0) 1).storeOf 1 ∧
    sysGetter (sysSetter "id" (sysFactory cfg0 "Address" "address" (sysFactory cfg0 "Address" "address" sys0 0) 1) 0
        (SetterArg.rawKey 3)) 1
      = sysGetter (sysFactory cfg0 "Address" "address" (sysFactory cfg0 "Address" "address" sys0 0) 1) 1 :=
  records_independent cfg0 "Address" "address" "id" sys0 0 1 (SetterArg.rawKey 3)
    (by decide) rfl rfl

/-- The C1 scenario: fresh owner with `address_id = 20`; the factory
runs (installing `getAddress`/`setAddress` and triggering the one load)
and the load then completes against a data source holding the records
`id 5` and `id 20`, in that order. -/
def sysC1 : Sys :=
  sysCompleteLoad (sysFactory cfg0 "Address" "address" sys0 0) 0 [addr5, addr20]

/-- C1: the claim promises a load keyed by primary key 20 and a callback
invocation with the loaded record.  The code triggers exactly one load,
but that load carries no filter at all, so both data-source records
arrive; invoking the installed getter with a callback returns the data
source's first record (`id 5`, not the one keyed 20) and performs no
callback invocation whatsoever. -/
theorem getAddress_keyed_callback_bug :
    (sysFactory cfg0 "Address" "address" sys0 0).totalLoads = 1 ∧
    (sysC1.storeOf 0).map Store.filters = some [] ∧
    (sysC1.storeOf 0).map Store.elems = some [addr5, addr20] ∧
    (sysC1.storeOf 0).map (fun s => hasOneGetterCall s "callback") = some (some addr5, []) ∧
    addr5.getField "id" = some 5 ∧
    owner20.fields.lookup "address_id" = some 20 := by
  refine ⟨by decide, by decide, by decide, by decide, by decide, by decide⟩

/-- The C6 scenario: the factory runs on a fresh owner record and the
triggered load then fails at the data source. -/
def sysC6 : Sys :=
  sysCompleteLoadFailure (sysFactory cfg0 "Address" "address" sys0 0) 0

/-- C6: the claim promises the load error to be reported through the
`failure`/`callback` pair supplied to the getter.  The code triggers the
load with no callbacks attached, and the installed getter ignores its
options argument: calling it after the failed load performs no callback
invocation and merely returns the empty contents, while the store has
recorded one failed and zero completed loads (non-terminal). -/
theorem loadFailure_callbacks_bug :
    (sysC6.storeOf 0).map (fun s => hasOneGetterCall s "failureCallbackPair")
      = some (none, []) ∧
    (sysC6.storeOf 0).map Store.loadsFailed = some 1 ∧
    (sysC6.storeOf 0).map Store.loadsCompleted = some 0 := by
  refine ⟨by decide, by decide, by decide⟩

/-- Owner record carrying the explicitly configured foreign-key field
`addr_id = 7`. -/
def ownerFk7 : OwnerRecord := ⟨[("addr_id", 7)], none, [], 0⟩

/-- Associated record with explicitly configured primary key
`unique_id = 9`. -/
def recU9 : ARecord := ⟨[("unique_id", 9)]⟩

/-- Associated record with explicitly configured primary key
`unique_id = 7` (the one the owner's `addr_id` points at). -/
def recU7 : ARecord := ⟨[("unique_id", 7)]⟩

/-- The C8 scenario: relation configured with explicit
`primaryKey: 'unique_id'` and `foreignKey: 'addr_id'`; the factory runs
on an owner with `addr_id = 7` and the load completes against a data
source holding `unique_id 9` before `unique_id 7`. -/
def sysC8 : Sys :=
  sysCompleteLoad (sysFactoryWithKeys "unique_id" "addr_id" cfg0 "Address" "address"
    ⟨[], fun _ => ownerFk7⟩ 0) 0 [recU9, recU7]

/-- C8: the claim says resolution uses `addr_id` on the owner and
`unique_id` on the associated type in every lookup.  The body of
`applyStore` never reads either configured key (the factory is the same
function for any key configuration), its one lookup — the store load —
carries no filter, and the getter returns the record with
`unique_id = 9`, not the one matching the owner's `addr_id = 7`. -/
theorem explicitKeys_bug :
    (∀ pk fk pk' fk' cfg am name sys i,
       sysFactoryWithKeys pk fk cfg am name sys i
         = sysFactoryWithKeys pk' fk' cfg am name sys i) ∧
    (sysC8.storeOf 0).map Store.filters = some [] ∧
    (sysC8.storeOf 0).map Store.elems = some [recU9, recU7] ∧
    sysGetter sysC8 0 = some recU9 ∧
    ownerFk7.fields.lookup "addr_id" = some 7 ∧
    recU9.getField "unique_id" = some 9 := by
  refine ⟨fun pk fk pk' fk' cfg am name sys i => rfl,
          by decide, by decide, by decide, by decide, by decide⟩
